import Mathlib

/-
  Shallow embedding of the profile-creation endpoint
  (src/routes/profiles.py and src/schemas/profiles.py).

  Strings are modelled with Lean `String`; the Python string helpers
  `.lower()`, `.strip()`, `.startswith(...)` and `.split(sep)[1]` are
  embedded as explicit list-of-character functions so that everything
  reduces by computation.
-/

namespace ProfileApp

/-- Python `str.lower()` on the underlying characters (ASCII case folding). -/
def py_lower (s : String) : String :=
  ⟨s.data.map Char.toLower⟩

/-- Python `str.strip()`: drop whitespace on both ends. -/
def py_strip (s : String) : String :=
  ⟨((s.data.dropWhile Char.isWhitespace).reverse.dropWhile Char.isWhitespace).reverse⟩

/-- Python `s.startswith(pre)`. -/
def py_startswith (s pre : String) : Bool :=
  pre.data.isPrefixOf s.data

/-- Characters of `s` before the first occurrence of `sep` (helper for
Python `str.split`). -/
def upto_sep (sep : List Char) : List Char → List Char
  | [] => []
  | c :: cs => if sep.isPrefixOf (c :: cs) then [] else c :: upto_sep sep cs

/-- Python `auth_header.split("Bearer ")[1]` for a header that starts with
`"Bearer "`: the text after the leading separator, up to the next
occurrence of the separator. -/
def bearer_token (h : String) : String :=
  ⟨upto_sep "Bearer ".data (h.data.drop 7)⟩

/-- A JSON-like value, as can appear for the `user_id` claim of a decoded
token payload. -/
inductive JsonVal where
  | null : JsonVal
  | int (n : Int) : JsonVal
  | str (s : String) : JsonVal
deriving DecidableEq, Repr

/-- Python truthiness of `payload.get("user_id")`: an absent key yields
`None` (falsy); `None`, `0` and `""` are falsy. -/
def truthyClaim : Option JsonVal → Bool
  | none => false
  | some JsonVal.null => false
  | some (JsonVal.int n) => n != 0
  | some (JsonVal.str s) => s != ""

/-- Decoded access-token payload; only the `user_id` claim is read by the
code. `none` models a payload without the key. -/
structure TokenPayload where
  user_id : Option JsonVal
deriving DecidableEq, Repr

/-- Errors the token subsystem can report (`exceptions` module). -/
inductive TokenError where
  | expired : TokenError
  | invalid : TokenError
deriving DecidableEq, Repr

/-- `UserGroupEnum` from the database layer. -/
inductive UserGroupEnum where
  | user : UserGroupEnum
  | moderator : UserGroupEnum
  | admin : UserGroupEnum
deriving DecidableEq, Repr

/-- A calendar date (`datetime.date`). -/
structure Date where
  year : Nat
  month : Nat
  day : Nat
deriving DecidableEq, Repr

/-- Strict ordering of dates. -/
def Date.ltb (a b : Date) : Bool :=
  a.year < b.year ||
    (a.year == b.year &&
      (a.month < b.month || (a.month == b.month && a.day < b.day)))

/-- Two-digit zero padding, as in ISO date rendering. -/
def pad2 (n : Nat) : String :=
  if n < 10 then "0" ++ toString n else toString n

/-- Python `str(value)` for a `date`: ISO `YYYY-MM-DD`. -/
def Date.toIso (d : Date) : String :=
  toString d.year ++ "-" ++ pad2 d.month ++ "-" ++ pad2 d.day

/-- The data FastAPI exposes for an uploaded file part: original filename,
declared content type, and byte size (the bytes themselves are opaque to
every check the code performs, so only the size is kept). -/
structure UploadFileData where
  filename : String
  content_type : String
  size : Nat
deriving DecidableEq, Repr

/-- `UserProfileModel` row as constructed and inserted by the handler. -/
structure UserProfileModel where
  id : Int
  user_id : Int
  first_name : String
  last_name : String
  gender : String
  date_of_birth : Date
  info : String
  avatar : String
deriving DecidableEq, Repr

/-- `UserModel` with the relations the two queries eagerly load: the
group (role) and the optional one-to-one profile. -/
structure UserModel where
  id : Int
  is_active : Bool
  group : UserGroupEnum
  profile : Option UserProfileModel
deriving DecidableEq, Repr

/-- `UserModel.has_group` membership test. -/
def UserModel.has_group (u : UserModel) (g : UserGroupEnum) : Bool :=
  u.group == g

/-- One entry of a structured 422 detail list, as built by the
field validators in src/schemas/profiles.py. -/
structure FieldErrorEntry where
  type : String
  loc : List String
  msg : String
  input : String
deriving DecidableEq, Repr

/-- Detail of an `HTTPException`: a plain message or a structured list. -/
inductive ErrorDetail where
  | msg (s : String) : ErrorDetail
  | fields (entries : List FieldErrorEntry) : ErrorDetail
deriving DecidableEq, Repr

/-- `HTTPException` as raised by the code: status code plus detail. -/
structure HTTPError where
  status_code : Nat
  detail : ErrorDetail
deriving DecidableEq, Repr

/-- The single-entry 422 error each field validator raises. -/
def mkFieldError (field m inp : String) : HTTPError :=
  ⟨422, ErrorDetail.fields [⟨"value_error", [field], m, inp⟩]⟩

/-- Modelled from the spec: `validation.validate_name` (the `validation`
module is not under src/). A name must be non-empty after trimming and
consist of letters only; returns the error message on failure. -/
def validate_name (value : String) : Option String :=
  if py_strip value == "" then
    some "Name cannot be empty or contain only spaces."
  else if !((py_strip value).data.all Char.isAlpha) then
    some "Name must contain only letters."
  else
    none

/-- Modelled from the spec: `validation.validate_gender` (the `validation`
module is not under src/). The value must belong to a fixed closed
vocabulary. -/
def gender_vocab : List String := ["man", "woman"]

/-- Modelled from the spec: `validation.validate_gender` check proper. -/
def validate_gender (value : String) : Option String :=
  if gender_vocab.contains value then none
  else some "Gender must be one of: man, woman."

/-- Modelled from the spec: `validation.validate_birth_date` (the
`validation` module is not under src/). Rejects dates in the future and
ages over 120 years, relative to `today`. -/
def validate_birth_date (today value : Date) : Option String :=
  if Date.ltb today value then
    some "Birth date cannot be in the future."
  else if (today.year : Int) - (value.year : Int) > 120 then
    some "Age must not exceed 120 years."
  else
    none

/-- Modelled from the spec: allowed avatar content types. -/
def allowed_image_types : List String := ["image/jpeg", "image/png"]

/-- Modelled from the spec: maximum avatar size in bytes. -/
def max_avatar_size : Nat := 1048576

/-- Modelled from the spec: `validation.validate_image` (the `validation`
module is not under src/). The attachment must have an allowed image
content type and be under the size bound. -/
def validate_image (f : UploadFileData) : Option String :=
  if !(allowed_image_types.contains f.content_type) then
    some "Invalid image format."
  else if f.size > max_avatar_size then
    some "Image size exceeds the allowed limit."
  else
    none

/-- The raw multipart form, after transport-level decoding: five text
fields (the date already parsed) plus the file part. -/
structure RawForm where
  first_name : String
  last_name : String
  gender : String
  date_of_birth : Date
  info : String
  avatar : UploadFileData
deriving DecidableEq, Repr

/-- The validated schema value (`ProfileCreateRequestSchema`): fields
carry the values returned by the field validators. -/
structure ProfileCreateRequestSchema where
  first_name : String
  last_name : String
  gender : String
  date_of_birth : Date
  info : String
  avatar : UploadFileData
deriving DecidableEq, Repr

namespace ProfileCreateRequestSchema

/-- `validate_first_name`: on rule failure raise a single-entry 422,
otherwise return `value.lower().strip()`. -/
def validate_first_name (value : String) : Except HTTPError String :=
  match validate_name value with
  | some m => Except.error (mkFieldError "first_name" m value)
  | none => Except.ok (py_strip (py_lower value))

/-- `validate_last_name`: same rule and normalization as the first name. -/
def validate_last_name (value : String) : Except HTTPError String :=
  match validate_name value with
  | some m => Except.error (mkFieldError "last_name" m value)
  | none => Except.ok (py_strip (py_lower value))

/-- `validate_gender_field`: rule check, value returned unchanged. -/
def validate_gender_field (value : String) : Except HTTPError String :=
  match validate_gender value with
  | some m => Except.error (mkFieldError "gender" m value)
  | none => Except.ok value

/-- `validate_age`: birth-date rule check, value returned unchanged; the
offending input is reported as `str(value)`. -/
def validate_age (today : Date) (value : Date) : Except HTTPError Date :=
  match validate_birth_date today value with
  | some m => Except.error (mkFieldError "date_of_birth" m (Date.toIso value))
  | none => Except.ok value

/-- `validate_info_field`: trim, reject if nothing remains, return the
trimmed value. -/
def validate_info_field (value : String) : Except HTTPError String :=
  if py_strip value == "" then
    Except.error
      (mkFieldError "info" "Info field cannot be empty or contain only spaces." value)
  else
    Except.ok (py_strip value)

/-- `validate_avatar`: image rule check, value returned unchanged; the
offending input is reported as the filename. -/
def validate_avatar (value : UploadFileData) : Except HTTPError UploadFileData :=
  match validate_image value with
  | some m => Except.error (mkFieldError "avatar" m value.filename)
  | none => Except.ok value

/-- `as_form`: construct the schema, running the pydantic field
validators in field declaration order; the first failure propagates. -/
def as_form (today : Date) (raw : RawForm) :
    Except HTTPError ProfileCreateRequestSchema :=
  match validate_first_name raw.first_name with
  | Except.error e => Except.error e
  | Except.ok fn =>
    match validate_last_name raw.last_name with
    | Except.error e => Except.error e
    | Except.ok ln =>
      match validate_gender_field raw.gender with
      | Except.error e => Except.error e
      | Except.ok g =>
        match validate_age today raw.date_of_birth with
        | Except.error e => Except.error e
        | Except.ok dob =>
          match validate_info_field raw.info with
          | Except.error e => Except.error e
          | Except.ok inf =>
            match validate_avatar raw.avatar with
            | Except.error e => Except.error e
            | Except.ok av => Except.ok ⟨fn, ln, g, dob, inf, av⟩

end ProfileCreateRequestSchema

/-- `ProfileCreateResponseSchema`: the exact response body fields. -/
structure ProfileCreateResponseSchema where
  id : Int
  user_id : Int
  first_name : String
  last_name : String
  gender : String
  date_of_birth : Date
  info : String
  avatar : String
deriving DecidableEq, Repr

/-- Does a `user_id` claim value match a database integer id (the SQL
comparison `UserModel.id == user_id`)? -/
def idMatchesClaim (v : JsonVal) (uid : Int) : Bool :=
  match v with
  | JsonVal.null => false
  | JsonVal.int n => n == uid
  | JsonVal.str s => s.toInt? == some uid

/-- The account-store read of `get_current_user`: first user whose id
matches the claim. -/
def lookup_user (db : List UserModel) : Option JsonVal → Option UserModel
  | none => none
  | some v => db.find? (fun u => idMatchesClaim v u.id)

/-- `get_current_user` (src/routes/profiles.py lines 26-70): resolve the
`Authorization` header to an active account or fail with a 401. -/
def get_current_user (auth_header : Option String)
    (jwt_decode : String → Except TokenError TokenPayload)
    (db : List UserModel) : Except HTTPError UserModel :=
  match auth_header with
  | none =>
    Except.error ⟨401, ErrorDetail.msg "Authorization header is missing"⟩
  | some h =>
    if !(py_startswith h "Bearer ") then
      Except.error
        ⟨401, ErrorDetail.msg
          "Invalid Authorization header format. Expected 'Bearer <token>'"⟩
    else
      match jwt_decode (bearer_token h) with
      | Except.error TokenError.expired =>
        Except.error ⟨401, ErrorDetail.msg "Token has expired."⟩
      | Except.error TokenError.invalid =>
        Except.error ⟨401, ErrorDetail.msg "Invalid token."⟩
      | Except.ok payload =>
        if !(truthyClaim payload.user_id) then
          Except.error ⟨401, ErrorDetail.msg "Invalid token."⟩
        else
          match lookup_user db payload.user_id with
          | none =>
            Except.error ⟨401, ErrorDetail.msg "User not found or not active."⟩
          | some user =>
            if !user.is_active then
              Except.error ⟨401, ErrorDetail.msg "User not found or not active."⟩
            else
              Except.ok user

/-- The target-account read of `create_profile`: first user whose id
equals the `user_id` path parameter. -/
def lookup_target (db : List UserModel) (uid : Int) : Option UserModel :=
  db.find? (fun u => u.id == uid)

/-- The deterministic storage key `f"avatars/{user.id}_{filename}"`. -/
def avatar_key (uid : Int) (filename : String) : String :=
  "avatars/" ++ toString uid ++ "_" ++ filename

/-- A successful write performed by the handler. -/
inductive Effect where
  | upload (key : String) : Effect
  | insert (row : UserProfileModel) : Effect
deriving DecidableEq, Repr

/-- The blob store: whether an upload of the given key/file succeeds, and
key-to-URL resolution. -/
structure S3Storage where
  upload_ok : String → UploadFileData → Bool
  get_file_url : String → String

/-- Declared success status of the route (`status_code=201` on the
decorator). -/
def create_profile_success_status : Nat := 201

/-- Body of `create_profile` (src/routes/profiles.py lines 83-137), after
its dependencies resolved: target lookup, authorization, uniqueness,
upload, insert, response assembly. Returns the outcome together with the
list of successful writes in order. -/
def create_profile (user_id : Int)
    (profile_data : ProfileCreateRequestSchema) (current_user : UserModel)
    (db : List UserModel) (s3 : S3Storage) (new_profile_id : Int) :
    Except HTTPError ProfileCreateResponseSchema × List Effect :=
  match lookup_target db user_id with
  | none =>
    (Except.error ⟨401, ErrorDetail.msg "User not found or not active."⟩, [])
  | some user =>
    if !user.is_active then
      (Except.error ⟨401, ErrorDetail.msg "User not found or not active."⟩, [])
    else if user_id != current_user.id && !(current_user.has_group UserGroupEnum.admin) then
      (Except.error
        ⟨403, ErrorDetail.msg "You don't have permission to edit this profile."⟩, [])
    else if user.profile.isSome then
      (Except.error ⟨400, ErrorDetail.msg "User already has a profile."⟩, [])
    else
      if !(s3.upload_ok (avatar_key user.id profile_data.avatar.filename)
            profile_data.avatar) then
        (Except.error
          ⟨500, ErrorDetail.msg "Failed to upload avatar. Please try again later."⟩, [])
      else
        (Except.ok
          { id := new_profile_id
            user_id := user.id
            first_name := profile_data.first_name
            last_name := profile_data.last_name
            gender := profile_data.gender
            date_of_birth := profile_data.date_of_birth
            info := profile_data.info
            avatar := s3.get_file_url (avatar_key user.id profile_data.avatar.filename) },
         [Effect.upload (avatar_key user.id profile_data.avatar.filename),
          Effect.insert
            { id := new_profile_id
              user_id := user.id
              first_name := profile_data.first_name
              last_name := profile_data.last_name
              gender := profile_data.gender
              date_of_birth := profile_data.date_of_birth
              info := profile_data.info
              avatar := avatar_key user.id profile_data.avatar.filename }])

/-- One inbound request: the `Authorization` header, the multipart form,
and the `user_id` path parameter. -/
structure RequestInput where
  auth_header : Option String
  form : RawForm
  user_id : Int

/-- The whole request pipeline for `POST /users/{user_id}/profile/`:
FastAPI resolves the `profile_data` dependency (form validation) and then
the `current_user` dependency, in their declaration order, before the
handler body runs; a failure of either terminates the request. -/
def handle_request (today : Date) (req : RequestInput)
    (jwt_decode : String → Except TokenError TokenPayload)
    (db : List UserModel) (s3 : S3Storage) (new_profile_id : Int) :
    Except HTTPError ProfileCreateResponseSchema × List Effect :=
  match ProfileCreateRequestSchema.as_form today req.form with
  | Except.error e => (Except.error e, [])
  | Except.ok pd =>
    match get_current_user req.auth_header jwt_decode db with
    | Except.error e => (Except.error e, [])
    | Except.ok cu => create_profile req.user_id pd cu db s3 new_profile_id

end ProfileApp

/-
  Concrete fixtures used by the witness theorems.
-/

namespace ProfileApp

/-- A fixed "today" for the birth-date check. -/
def today0 : Date := ⟨2026, 10, 12⟩

/-- A small valid JPEG attachment. -/
def av0 : UploadFileData := ⟨"me.jpg", "image/jpeg", 1000⟩

/-- A fully valid raw form (names un-normalized on purpose). -/
def raw0 : RawForm := ⟨"  Ada ", " Lovelace ", "woman", ⟨1990, 5, 1⟩, "  hi there ", av0⟩

/-- A raw form whose only invalid field is the gender. -/
def rawBadGender : RawForm := ⟨"Ada", "Lovelace", "unknown", ⟨1990, 5, 1⟩, "hi", av0⟩

/-- A validated schema value. -/
def pd0 : ProfileCreateRequestSchema := ⟨"ada", "lovelace", "woman", ⟨1990, 5, 1⟩, "hi", av0⟩

/-- The validated form of `raw0`. -/
def pd_raw0 : ProfileCreateRequestSchema :=
  ⟨"ada", "lovelace", "woman", ⟨1990, 5, 1⟩, "hi there", av0⟩

/-- An existing profile row for account 2. -/
def profile0 : UserProfileModel :=
  ⟨3, 2, "eva", "smith", "woman", ⟨1980, 1, 1⟩, "bio", "avatars/2_old.png"⟩

/-- Active admin account with id 1. -/
def user_admin1 : UserModel := ⟨1, true, UserGroupEnum.admin, none⟩

/-- Active non-admin account with id 1. -/
def user_plain1 : UserModel := ⟨1, true, UserGroupEnum.user, none⟩

/-- Active non-admin account with id 2 and no profile. -/
def target2 : UserModel := ⟨2, true, UserGroupEnum.user, none⟩

/-- Active non-admin account with id 2 that already has a profile. -/
def target2p : UserModel := ⟨2, true, UserGroupEnum.user, some profile0⟩

/-- Admin caller, fresh target. -/
def db0 : List UserModel := [user_admin1, target2]

/-- Non-admin caller, target with an existing profile. -/
def db1 : List UserModel := [user_plain1, target2p]

/-- Non-admin caller, fresh target. -/
def db2 : List UserModel := [user_plain1, target2]

/-- Admin caller, target with an existing profile. -/
def db3 : List UserModel := [user_admin1, target2p]

/-- A token decoder that always resolves to subject 1. -/
def jd1 : String → Except TokenError TokenPayload :=
  fun _ => Except.ok ⟨some (JsonVal.int 1)⟩

/-- A blob store whose uploads succeed. -/
def s30 : S3Storage := ⟨fun _ _ => true, fun k => "https://cdn/" ++ k⟩

/-- A blob store whose uploads fail. -/
def s3fail : S3Storage := ⟨fun _ _ => false, fun k => "https://cdn/" ++ k⟩

/-- Valid request targeting account 2. -/
def req0 : RequestInput := ⟨some "Bearer tok", raw0, 2⟩

/-- Same request with the Authorization header absent. -/
def reqNoAuth : RequestInput := ⟨none, raw0, 2⟩

/-- Same request with an invalid gender field. -/
def reqBadGender : RequestInput := ⟨some "Bearer tok", rawBadGender, 2⟩

/-- The profile row inserted for `req0`. -/
def row0 : UserProfileModel :=
  ⟨7, 2, "ada", "lovelace", "woman", ⟨1990, 5, 1⟩, "hi there", "avatars/2_me.jpg"⟩

/-- The response returned for `req0`. -/
def resp0 : ProfileCreateResponseSchema :=
  ⟨7, 2, "ada", "lovelace", "woman", ⟨1990, 5, 1⟩, "hi there", "https://cdn/avatars/2_me.jpg"⟩

/-- The write effects of `req0`. -/
def effs0 : List Effect := [Effect.upload "avatars/2_me.jpg", Effect.insert row0]

end ProfileApp

/-
  Helper lemmas.
-/

namespace ProfileApp

/-- A user found by `lookup_target` has the looked-up id. -/
theorem lookup_target_id {db : List UserModel} {uid : Int} {u : UserModel}
    (h : lookup_target db uid = some u) : u.id = uid := by
  unfold lookup_target at h
  have hp := List.find?_some h
  simp only [beq_iff_eq] at hp
  exact hp

/-- Success characterization of the first-name validator. -/
theorem validate_first_name_eq_ok {v x : String} :
    ProfileCreateRequestSchema.validate_first_name v = Except.ok x ↔
      validate_name v = none ∧ x = py_strip (py_lower v) := by
  unfold ProfileCreateRequestSchema.validate_first_name
  split <;> simp_all <;> exact eq_comm

/-- Success characterization of the last-name validator. -/
theorem validate_last_name_eq_ok {v x : String} :
    ProfileCreateRequestSchema.validate_last_name v = Except.ok x ↔
      validate_name v = none ∧ x = py_strip (py_lower v) := by
  unfold ProfileCreateRequestSchema.validate_last_name
  split <;> simp_all <;> exact eq_comm

/-- Success characterization of the gender validator. -/
theorem validate_gender_field_eq_ok {v x : String} :
    ProfileCreateRequestSchema.validate_gender_field v = Except.ok x ↔
      validate_gender v = none ∧ x = v := by
  unfold ProfileCreateRequestSchema.validate_gender_field
  split <;> simp_all <;> exact eq_comm

/-- Success characterization of the birth-date validator. -/
theorem validate_age_eq_ok {today v x : Date} :
    ProfileCreateRequestSchema.validate_age today v = Except.ok x ↔
      validate_birth_date today v = none ∧ x = v := by
  unfold ProfileCreateRequestSchema.validate_age
  split <;> simp_all <;> exact eq_comm

/-- Success characterization of the info validator. -/
theorem validate_info_field_eq_ok {v x : String} :
    ProfileCreateRequestSchema.validate_info_field v = Except.ok x ↔
      ¬(py_strip v = "") ∧ x = py_strip v := by
  unfold ProfileCreateRequestSchema.validate_info_field
  split <;> simp_all <;> exact eq_comm

/-- Success characterization of the avatar validator. -/
theorem validate_avatar_eq_ok {v x : UploadFileData} :
    ProfileCreateRequestSchema.validate_avatar v = Except.ok x ↔
      validate_image v = none ∧ x = v := by
  unfold ProfileCreateRequestSchema.validate_avatar
  split <;> simp_all <;> exact eq_comm

/-- A validated schema value carries exactly the normalized raw fields. -/
theorem as_form_ok {today : Date} {raw : RawForm} {pd : ProfileCreateRequestSchema}
    (h : ProfileCreateRequestSchema.as_form today raw = Except.ok pd) :
    pd = ⟨py_strip (py_lower raw.first_name), py_strip (py_lower raw.last_name),
          raw.gender, raw.date_of_birth, py_strip raw.info, raw.avatar⟩ := by
  unfold ProfileCreateRequestSchema.as_form at h
  repeat' split at h <;>
    simp_all [validate_first_name_eq_ok, validate_last_name_eq_ok,
      validate_gender_field_eq_ok, validate_age_eq_ok, validate_info_field_eq_ok,
      validate_avatar_eq_ok]

/-- A failing handler body performs no writes. -/
theorem create_profile_error_effects {user_id : Int}
    {pd : ProfileCreateRequestSchema} {cu : UserModel} {db : List UserModel}
    {s3 : S3Storage} {nid : Int} {e : HTTPError} {effs : List Effect}
    (h : create_profile user_id pd cu db s3 nid = (Except.error e, effs)) :
    effs = [] := by
  unfold create_profile at h
  repeat' split at h <;> simp_all

/-- A successful handler body found its target and wrote the upload then the
insert, and the response is assembled from the validated data. -/
theorem create_profile_ok {user_id : Int}
    {pd : ProfileCreateRequestSchema} {cu : UserModel} {db : List UserModel}
    {s3 : S3Storage} {nid : Int} {resp : ProfileCreateResponseSchema} {effs : List Effect}
    (h : create_profile user_id pd cu db s3 nid = (Except.ok resp, effs)) :
    ∃ u, lookup_target db user_id = some u ∧
      resp = ⟨nid, u.id, pd.first_name, pd.last_name, pd.gender, pd.date_of_birth,
              pd.info, s3.get_file_url (avatar_key u.id pd.avatar.filename)⟩ ∧
      effs = [Effect.upload (avatar_key u.id pd.avatar.filename),
              Effect.insert ⟨nid, u.id, pd.first_name, pd.last_name, pd.gender,
                             pd.date_of_birth, pd.info, avatar_key u.id pd.avatar.filename⟩] := by
  unfold create_profile at h
  repeat' split at h <;> simp_all

/-- A failing request performs no writes. -/
theorem handle_request_error_effects {today : Date} {req : RequestInput}
    {jd : String → Except TokenError TokenPayload} {db : List UserModel}
    {s3 : S3Storage} {nid : Int} {e : HTTPError} {effs : List Effect}
    (h : handle_request today req jd db s3 nid = (Except.error e, effs)) :
    effs = [] := by
  unfold handle_request at h
  split at h
  · simp_all
  · split at h
    · simp_all
    · exact create_profile_error_effects h

/-- The full shape of a successful request: normalized response fields,
resolved URL, and exactly one upload followed by one insert. -/
theorem handle_request_ok {today : Date} {req : RequestInput}
    {jd : String → Except TokenError TokenPayload} {db : List UserModel}
    {s3 : S3Storage} {nid : Int} {resp : ProfileCreateResponseSchema} {effs : List Effect}
    (h : handle_request today req jd db s3 nid = (Except.ok resp, effs)) :
    resp = ⟨nid, req.user_id,
            py_strip (py_lower req.form.first_name), py_strip (py_lower req.form.last_name),
            req.form.gender, req.form.date_of_birth, py_strip req.form.info,
            s3.get_file_url (avatar_key req.user_id req.form.avatar.filename)⟩ ∧
    effs = [Effect.upload (avatar_key req.user_id req.form.avatar.filename),
            Effect.insert ⟨nid, req.user_id,
              py_strip (py_lower req.form.first_name), py_strip (py_lower req.form.last_name),
              req.form.gender, req.form.date_of_birth, py_strip req.form.info,
              avatar_key req.user_id req.form.avatar.filename⟩] := by
  unfold handle_request at h
  split at h
  · simp_all
  · split at h
    · simp_all
    · rename_i x1 pd hform x2 cu hauth
      obtain ⟨u, hu, hresp, heffs⟩ := create_profile_ok h
      have hid : u.id = req.user_id := lookup_target_id hu
      have hpd := as_form_ok hform
      subst hpd
      simp only [hid] at hresp heffs
      exact ⟨hresp, heffs⟩

/-- A first-name validation failure is a 422. -/
theorem validate_first_name_error_status {v : String} {e : HTTPError}
    (h : ProfileCreateRequestSchema.validate_first_name v = Except.error e) :
    e.status_code = 422 := by
  unfold ProfileCreateRequestSchema.validate_first_name at h
  split at h
  · injection h with h1
    subst h1
    rfl
  · exact Except.noConfusion h

/-- A last-name validation failure is a 422. -/
theorem validate_last_name_error_status {v : String} {e : HTTPError}
    (h : ProfileCreateRequestSchema.validate_last_name v = Except.error e) :
    e.status_code = 422 := by
  unfold ProfileCreateRequestSchema.validate_last_name at h
  split at h
  · injection h with h1
    subst h1
    rfl
  · exact Except.noConfusion h

/-- A gender validation failure is a 422. -/
theorem validate_gender_field_error_status {v : String} {e : HTTPError}
    (h : ProfileCreateRequestSchema.validate_gender_field v = Except.error e) :
    e.status_code = 422 := by
  unfold ProfileCreateRequestSchema.validate_gender_field at h
  split at h
  · injection h with h1
    subst h1
    rfl
  · exact Except.noConfusion h

/-- A birth-date validation failure is a 422. -/
theorem validate_age_error_status {today v : Date} {e : HTTPError}
    (h : ProfileCreateRequestSchema.validate_age today v = Except.error e) :
    e.status_code = 422 := by
  unfold ProfileCreateRequestSchema.validate_age at h
  split at h
  · injection h with h1
    subst h1
    rfl
  · exact Except.noConfusion h

/-- An info validation failure is a 422. -/
theorem validate_info_field_error_status {v : String} {e : HTTPError}
    (h : ProfileCreateRequestSchema.validate_info_field v = Except.error e) :
    e.status_code = 422 := by
  unfold ProfileCreateRequestSchema.validate_info_field at h
  split at h
  · injection h with h1
    subst h1
    rfl
  · exact Except.noConfusion h

/-- An avatar validation failure is a 422. -/
theorem validate_avatar_error_status {v : UploadFileData} {e : HTTPError}
    (h : ProfileCreateRequestSchema.validate_avatar v = Except.error e) :
    e.status_code = 422 := by
  unfold ProfileCreateRequestSchema.validate_avatar at h
  split at h
  · injection h with h1
    subst h1
    rfl
  · exact Except.noConfusion h

/-- Every form-validation failure carries status 422. -/
theorem as_form_error_status {today : Date} {raw : RawForm} {e : HTTPError}
    (h : ProfileCreateRequestSchema.as_form today raw = Except.error e) :
    e.status_code = 422 := by
  unfold ProfileCreateRequestSchema.as_form at h
  split at h
  · rename_i e1 heq1
    injection h with h1
    subst h1
    exact validate_first_name_error_status heq1
  · rename_i fn heq1
    split at h
    · rename_i e2 heq2
      injection h with h1
      subst h1
      exact validate_last_name_error_status heq2
    · rename_i ln heq2
      split at h
      · rename_i e3 heq3
        injection h with h1
        subst h1
        exact validate_gender_field_error_status heq3
      · rename_i g heq3
        split at h
        · rename_i e4 heq4
          injection h with h1
          subst h1
          exact validate_age_error_status heq4
        · rename_i dob heq4
          split at h
          · rename_i e5 heq5
            injection h with h1
            subst h1
            exact validate_info_field_error_status heq5
          · rename_i inf heq5
            split at h
            · rename_i e6 heq6
              injection h with h1
              subst h1
              exact validate_avatar_error_status heq6
            · exact Except.noConfusion h

/-- If the caller is the target or an admin, no handler-body error is a 403. -/
theorem create_profile_not_403 {user_id : Int}
    {pd : ProfileCreateRequestSchema} {cu : UserModel} {db : List UserModel}
    {s3 : S3Storage} {nid : Int} {e : HTTPError} {effs : List Effect}
    (hok : (user_id != cu.id && !(cu.has_group UserGroupEnum.admin)) = false)
    (h : create_profile user_id pd cu db s3 nid = (Except.error e, effs)) :
    e.status_code ≠ 403 := by
  unfold create_profile at h
  repeat' split at h
  all_goals first
  | (exfalso; simp_all; done)
  | (simp only [Prod.mk.injEq, Except.error.injEq] at h
     rw [← h.1]
     decide)

/-- Every identity-resolution failure carries status 401. -/
theorem get_current_user_error_status {ah : Option String}
    {jd : String → Except TokenError TokenPayload} {db : List UserModel}
    {e : HTTPError} (he : get_current_user ah jd db = Except.error e) :
    e.status_code = 401 := by
  unfold get_current_user at he
  repeat' split at he
  all_goals first
  | exact Except.noConfusion he
  | (injection he with h1; rw [← h1])

/-- A successful identity resolution passed every check on the way. -/
theorem get_current_user_ok_shape {ah : Option String}
    {jd : String → Except TokenError TokenPayload} {db : List UserModel}
    {u : UserModel} (h : get_current_user ah jd db = Except.ok u) :
    ∃ hh p, ah = some hh ∧ py_startswith hh "Bearer " = true ∧
      jd (bearer_token hh) = Except.ok p ∧ truthyClaim p.user_id = true ∧
      lookup_user db p.user_id = some u ∧ u.is_active = true := by
  unfold get_current_user at h
  split at h
  · exact Except.noConfusion h
  · rename_i hh
    split at h
    · exact Except.noConfusion h
    · rename_i hb
      split at h
      · exact Except.noConfusion h
      · exact Except.noConfusion h
      · rename_i p hjd
        split at h
        · exact Except.noConfusion h
        · rename_i ht
          split at h
          · exact Except.noConfusion h
          · rename_i u2 hl
            split at h
            · exact Except.noConfusion h
            · rename_i hact
              injection h with hu
              subst hu
              refine ⟨hh, p, rfl, ?_, hjd, ?_, hl, ?_⟩
              · simpa using hb
              · simpa using ht
              · simpa using hact

end ProfileApp

/-
  Claim theorems.
-/

namespace ProfileApp

/-- C1: for every request, a failure at any stage (identity resolution,
field validation, target existence, authorization, uniqueness, upload)
terminates with zero writes, and every successful request performs exactly
one blob upload strictly followed by one profile insert. -/
theorem c1_writes_only_after_all_checks (today : Date) (req : RequestInput)
    (jd : String → Except TokenError TokenPayload) (db : List UserModel)
    (s3 : S3Storage) (nid : Int) :
    (∀ e effs, handle_request today req jd db s3 nid = (Except.error e, effs) →
      effs = []) ∧
    (∀ resp effs, handle_request today req jd db s3 nid = (Except.ok resp, effs) →
      ∃ key row, effs = [Effect.upload key, Effect.insert row]) := by
  constructor
  · intro e effs h
    exact handle_request_error_effects h
  · intro resp effs h
    exact ⟨_, _, (handle_request_ok h).2⟩

/-- Witness for C1: a request with no Authorization header writes nothing,
and a fully valid request writes the upload then the insert. -/
theorem c1_writes_only_after_all_checks_witness :
    (handle_request today0 reqNoAuth jd1 db0 s30 7).2 = [] ∧
    ∃ key row, (handle_request today0 req0 jd1 db0 s30 7).2 =
      [Effect.upload key, Effect.insert row] :=
  ⟨(c1_writes_only_after_all_checks today0 reqNoAuth jd1 db0 s30 7).1 _ _ rfl,
   (c1_writes_only_after_all_checks today0 req0 jd1 db0 s30 7).2 _ _ rfl⟩

/-- C2: the handler body checks, in order: target missing or inactive
(401), then caller neither target nor admin (403, even when the target
already has a profile), then existing profile (400). -/
theorem c2_authorization_check_order (user_id : Int)
    (pd : ProfileCreateRequestSchema) (cu : UserModel) (db : List UserModel)
    (s3 : S3Storage) (nid : Int) :
    ((lookup_target db user_id = none ∨
        ∃ u, lookup_target db user_id = some u ∧ u.is_active = false) →
      create_profile user_id pd cu db s3 nid =
        (Except.error ⟨401, ErrorDetail.msg "User not found or not active."⟩, [])) ∧
    (∀ u, lookup_target db user_id = some u → u.is_active = true →
      (user_id != cu.id && !(cu.has_group UserGroupEnum.admin)) = true →
      create_profile user_id pd cu db s3 nid =
        (Except.error
          ⟨403, ErrorDetail.msg "You don't have permission to edit this profile."⟩, [])) ∧
    (∀ u, lookup_target db user_id = some u → u.is_active = true →
      (user_id != cu.id && !(cu.has_group UserGroupEnum.admin)) = false →
      u.profile.isSome = true →
      create_profile user_id pd cu db s3 nid =
        (Except.error ⟨400, ErrorDetail.msg "User already has a profile."⟩, [])) := by
  refine ⟨?_, ?_, ?_⟩
  · intro hcase
    unfold create_profile
    rcases hcase with hnone | ⟨u, hu, hact⟩
    · rw [hnone]
    · rw [hu]; simp [hact]
  · intro u hu hact hperm
    unfold create_profile
    rw [hu]
    simp [hact, hperm]
  · intro u hu hact hperm hprof
    unfold create_profile
    rw [hu]
    simp [hact, hperm, hprof]

/-- Witness for C2: a non-admin caller targeting another account that
already has a profile gets 403 (not 400); the target itself gets 400; a
missing target gets 401. -/
theorem c2_authorization_check_order_witness :
    create_profile 2 pd0 user_plain1 db1 s30 7 =
      (Except.error
        ⟨403, ErrorDetail.msg "You don't have permission to edit this profile."⟩, []) ∧
    create_profile 2 pd0 target2p db1 s30 7 =
      (Except.error ⟨400, ErrorDetail.msg "User already has a profile."⟩, []) ∧
    create_profile 5 pd0 user_plain1 db1 s30 7 =
      (Except.error ⟨401, ErrorDetail.msg "User not found or not active."⟩, []) :=
  ⟨(c2_authorization_check_order 2 pd0 user_plain1 db1 s30 7).2.1 target2p rfl rfl rfl,
   (c2_authorization_check_order 2 pd0 target2p db1 s30 7).2.2 target2p rfl rfl rfl rfl,
   (c2_authorization_check_order 5 pd0 user_plain1 db1 s30 7).1 (Or.inl rfl)⟩

/-- C3: when the blob-store upload fails, the request ends with a 500
carrying the fixed generic message, and no profile row is inserted. -/
theorem c3_upload_failure_no_insert {today : Date} {req : RequestInput}
    {jd : String → Except TokenError TokenPayload} {db : List UserModel}
    {s3 : S3Storage} {nid : Int} {pd : ProfileCreateRequestSchema}
    {cu u : UserModel}
    (hform : ProfileCreateRequestSchema.as_form today req.form = Except.ok pd)
    (hauth : get_current_user req.auth_header jd db = Except.ok cu)
    (htarget : lookup_target db req.user_id = some u)
    (hact : u.is_active = true)
    (hperm : (req.user_id != cu.id && !(cu.has_group UserGroupEnum.admin)) = false)
    (hprof : u.profile.isSome = false)
    (hup : s3.upload_ok (avatar_key u.id pd.avatar.filename) pd.avatar = false) :
    handle_request today req jd db s3 nid =
      (Except.error
        ⟨500, ErrorDetail.msg "Failed to upload avatar. Please try again later."⟩, []) := by
  unfold handle_request
  rw [hform, hauth]
  unfold create_profile
  rw [htarget]
  simp [hact, hperm, hprof, hup]

/-- Witness for C3: a valid request against a failing blob store ends 500
with zero writes. -/
theorem c3_upload_failure_no_insert_witness :
    handle_request today0 req0 jd1 db0 s3fail 7 =
      (Except.error
        ⟨500, ErrorDetail.msg "Failed to upload avatar. Please try again later."⟩, []) :=
  c3_upload_failure_no_insert rfl rfl rfl rfl rfl rfl rfl

/-- C4 counterexample: a non-admin caller (id 1) targeting another active
account (id 2) with an invalid payload receives 422, not the 403 the claim
promises "regardless of the payload". -/
theorem c4_forbidden_cex :
    handle_request today0 reqBadGender jd1 db2 s30 7 =
      (Except.error ⟨422, ErrorDetail.fields
        [⟨"value_error", ["gender"], "Gender must be one of: man, woman.", "unknown"⟩]⟩,
       []) := rfl

/-- C4 (amended): for every request whose payload passes field validation,
a caller who is neither the target nor an admin gets 403 when the target
exists and is active; conversely a caller who is the target or an admin is
never rejected with 403. -/
theorem c4_forbidden_amended (today : Date) (req : RequestInput)
    (jd : String → Except TokenError TokenPayload) (db : List UserModel)
    (s3 : S3Storage) (nid : Int) :
    (∀ pd cu u,
      ProfileCreateRequestSchema.as_form today req.form = Except.ok pd →
      get_current_user req.auth_header jd db = Except.ok cu →
      lookup_target db req.user_id = some u → u.is_active = true →
      cu.id ≠ req.user_id → cu.has_group UserGroupEnum.admin = false →
      handle_request today req jd db s3 nid =
        (Except.error
          ⟨403, ErrorDetail.msg "You don't have permission to edit this profile."⟩, [])) ∧
    (∀ cu e effs,
      get_current_user req.auth_header jd db = Except.ok cu →
      (cu.id = req.user_id ∨ cu.has_group UserGroupEnum.admin = true) →
      handle_request today req jd db s3 nid = (Except.error e, effs) →
      e.status_code ≠ 403) := by
  constructor
  · intro pd cu u hform hauth htarget hact hne hadm
    have hcond : (req.user_id != cu.id && !(cu.has_group UserGroupEnum.admin)) = true := by
      rw [hadm]
      simp [bne_iff_ne]
      exact fun hh => hne hh.symm
    unfold handle_request
    rw [hform, hauth]
    unfold create_profile
    rw [htarget]
    simp [hact, hcond]
  · intro cu e effs hauth hor h
    have hok : (req.user_id != cu.id && !(cu.has_group UserGroupEnum.admin)) = false := by
      rcases hor with h1 | h1
      · simp [h1]
      · simp [h1]
    unfold handle_request at h
    split at h
    · rename_i e2 hform
      have h422 := as_form_error_status hform
      simp only [Prod.mk.injEq, Except.error.injEq] at h
      rw [← h.1, h422]
      decide
    · rename_i pd hform
      split at h
      · rename_i e3 hauth2
        rw [hauth] at hauth2
        exact absurd hauth2 (by simp)
      · rename_i cu2 hauth2
        rw [hauth] at hauth2
        injection hauth2 with hcu
        subst hcu
        exact create_profile_not_403 hok h

/-- Witness for C4 (amended): with a valid payload the forbidden caller
gets 403; an admin caller hitting the existing-profile case gets a
non-403 error. -/
theorem c4_forbidden_amended_witness :
    handle_request today0 req0 jd1 db2 s30 7 =
      (Except.error
        ⟨403, ErrorDetail.msg "You don't have permission to edit this profile."⟩, []) ∧
    (⟨400, ErrorDetail.msg "User already has a profile."⟩ : HTTPError).status_code ≠ 403 :=
  ⟨(c4_forbidden_amended today0 req0 jd1 db2 s30 7).1 pd_raw0 user_plain1 target2
      rfl rfl rfl rfl (by decide) rfl,
   (c4_forbidden_amended today0 req0 jd1 db3 s30 7).2 user_admin1 _ []
      rfl (Or.inr rfl) rfl⟩

end ProfileApp

namespace ProfileApp

/-- C5: identity resolution fails (always with status 401) exactly when the
header is absent, the header lacks the Bearer form, the token subsystem
reports expiry or any other invalidity, the decoded payload has no truthy
subject identifier, or no active account matches the subject; and whenever
it fails the request performs no writes. -/
theorem c5_identity_resolution_cases (ah : Option String)
    (jd : String → Except TokenError TokenPayload) (db : List UserModel) :
    (∀ e, get_current_user ah jd db = Except.error e → e.status_code = 401) ∧
    ((∃ e, get_current_user ah jd db = Except.error e) ↔
      (ah = none ∨
        ∃ h, ah = some h ∧
          (py_startswith h "Bearer " = false ∨
           jd (bearer_token h) = Except.error TokenError.expired ∨
           jd (bearer_token h) = Except.error TokenError.invalid ∨
           ∃ p, jd (bearer_token h) = Except.ok p ∧
             (truthyClaim p.user_id = false ∨
              lookup_user db p.user_id = none ∨
              ∃ u, lookup_user db p.user_id = some u ∧ u.is_active = false)))) ∧
    (∀ today form uid s3 nid e,
      get_current_user ah jd db = Except.error e →
      (handle_request today ⟨ah, form, uid⟩ jd db s3 nid).2 = []) := by
  refine ⟨?_, ?_, ?_⟩
  · intro e he
    exact get_current_user_error_status he
  · constructor
    · rintro ⟨e, he⟩
      unfold get_current_user at he
      split at he
      · exact Or.inl rfl
      · rename_i h
        refine Or.inr ⟨h, rfl, ?_⟩
        split at he
        · rename_i hb
          exact Or.inl (by simpa using hb)
        · rename_i hb
          split at he
          · rename_i heq
            exact Or.inr (Or.inl heq)
          · rename_i heq
            exact Or.inr (Or.inr (Or.inl heq))
          · rename_i p heq
            refine Or.inr (Or.inr (Or.inr ⟨p, heq, ?_⟩))
            split at he
            · rename_i ht
              exact Or.inl (by simpa using ht)
            · rename_i ht
              split at he
              · rename_i hl
                exact Or.inr (Or.inl hl)
              · rename_i u hl
                split at he
                · rename_i hact
                  exact Or.inr (Or.inr ⟨u, hl, by simpa using hact⟩)
                · exact Except.noConfusion he
    · intro hrhs
      cases hx : get_current_user ah jd db with
      | error e => exact ⟨e, rfl⟩
      | ok u =>
        exfalso
        obtain ⟨hh, p, hah, hb, hjd, ht, hl, hact⟩ := get_current_user_ok_shape hx
        subst hah
        rcases hrhs with hnone | ⟨h2, hh2, hcase⟩
        · exact Option.noConfusion hnone
        · injection hh2 with hh2e
          subst hh2e
          rcases hcase with hb2 | hjd2 | hjd2 | ⟨p2, hjd2, hp2⟩
          · rw [hb] at hb2
            exact Bool.noConfusion hb2
          · rw [hjd] at hjd2
            exact Except.noConfusion hjd2
          · rw [hjd] at hjd2
            exact Except.noConfusion hjd2
          · rw [hjd] at hjd2
            injection hjd2 with hp2e
            subst hp2e
            rcases hp2 with ht2 | hl2 | ⟨u2, hl2, hact2⟩
            · rw [ht] at ht2
              exact Bool.noConfusion ht2
            · rw [hl] at hl2
              exact Option.noConfusion hl2
            · rw [hl] at hl2
              injection hl2 with hu2
              subst hu2
              rw [hact] at hact2
              exact Bool.noConfusion hact2
  · intro today form uid s3 nid e he
    unfold handle_request
    split
    · rfl
    · dsimp only
      rw [he]

/-- Witness for C5: a header without the Bearer form fails identity
resolution, and an absent header yields a request with zero writes. -/
theorem c5_identity_resolution_cases_witness :
    (∃ e, get_current_user (some "token tok") jd1 db0 = Except.error e) ∧
    (handle_request today0 reqNoAuth jd1 db0 s30 7).2 = [] := by
  constructor
  · exact (c5_identity_resolution_cases (some "token tok") jd1 db0).2.1.mpr
      (Or.inr ⟨"token tok", rfl, Or.inl rfl⟩)
  · exact (c5_identity_resolution_cases none jd1 db0).2.2 today0 raw0 2 s30 7
      ⟨401, ErrorDetail.msg "Authorization header is missing"⟩ rfl

/-- C6: on success, the returned and the persisted first and last names are
the lower-cased trimmed submitted values, and the info is the trimmed
submitted value. -/
theorem c6_normalized_persisted (today : Date) (req : RequestInput)
    (jd : String → Except TokenError TokenPayload) (db : List UserModel)
    (s3 : S3Storage) (nid : Int) :
    ∀ resp effs, handle_request today req jd db s3 nid = (Except.ok resp, effs) →
      resp.first_name = py_strip (py_lower req.form.first_name) ∧
      resp.last_name = py_strip (py_lower req.form.last_name) ∧
      resp.info = py_strip req.form.info ∧
      ∃ key row, effs = [Effect.upload key, Effect.insert row] ∧
        row.first_name = py_strip (py_lower req.form.first_name) ∧
        row.last_name = py_strip (py_lower req.form.last_name) ∧
        row.info = py_strip req.form.info := by
  intro resp effs h
  obtain ⟨hresp, heffs⟩ := handle_request_ok h
  subst hresp
  exact ⟨rfl, rfl, rfl, _, _, heffs, rfl, rfl, rfl⟩

/-- Witness for C6: submitting first name "  Ada " stores and returns
"ada". -/
theorem c6_normalized_persisted_witness :
    resp0.first_name = py_strip (py_lower "  Ada ") ∧
    py_strip (py_lower "  Ada ") = "ada" ∧
    resp0.first_name = "ada" := by
  have hc := c6_normalized_persisted today0 req0 jd1 db0 s30 7 resp0 effs0 rfl
  exact ⟨hc.1, by decide, Eq.trans hc.1 (by decide)⟩

/-- C7: on success, the uploaded and persisted storage key is exactly
"avatars/" ++ target id ++ "_" ++ original filename, a deterministic
function of those two values. -/
theorem c7_avatar_storage_key (today : Date) (req : RequestInput)
    (jd : String → Except TokenError TokenPayload) (db : List UserModel)
    (s3 : S3Storage) (nid : Int) :
    ∀ resp effs, handle_request today req jd db s3 nid = (Except.ok resp, effs) →
      ∃ row,
        effs = [Effect.upload (avatar_key req.user_id req.form.avatar.filename),
                Effect.insert row] ∧
        row.avatar = avatar_key req.user_id req.form.avatar.filename ∧
        avatar_key req.user_id req.form.avatar.filename =
          "avatars/" ++ toString req.user_id ++ "_" ++ req.form.avatar.filename := by
  intro resp effs h
  obtain ⟨hresp, heffs⟩ := handle_request_ok h
  exact ⟨_, heffs, rfl, rfl⟩

/-- Witness for C7: account 2 with filename "me.jpg" yields the key
"avatars/2_me.jpg". -/
theorem c7_avatar_storage_key_witness :
    ∃ row, effs0 = [Effect.upload (avatar_key 2 "me.jpg"), Effect.insert row] ∧
      row.avatar = avatar_key 2 "me.jpg" ∧
      avatar_key 2 "me.jpg" = "avatars/2_me.jpg" := by
  obtain ⟨row, h1, h2, _⟩ := c7_avatar_storage_key today0 req0 jd1 db0 s30 7 resp0 effs0 rfl
  exact ⟨row, h1, h2, rfl⟩

/-- C8: a successful request returns the declared 201 status and a body
with exactly the fields id, user_id, first_name, last_name, gender,
date_of_birth, info and avatar, where avatar is the URL resolved by the
blob store from the stored key. -/
theorem c8_success_response (today : Date) (req : RequestInput)
    (jd : String → Except TokenError TokenPayload) (db : List UserModel)
    (s3 : S3Storage) (nid : Int) :
    ∀ resp effs, handle_request today req jd db s3 nid = (Except.ok resp, effs) →
      resp = ⟨nid, req.user_id,
              py_strip (py_lower req.form.first_name),
              py_strip (py_lower req.form.last_name),
              req.form.gender, req.form.date_of_birth,
              py_strip req.form.info,
              s3.get_file_url (avatar_key req.user_id req.form.avatar.filename)⟩ ∧
      create_profile_success_status = 201 := by
  intro resp effs h
  exact ⟨(handle_request_ok h).1, rfl⟩

/-- Witness for C8: the concrete success response, with the avatar field
equal to the resolved URL of the stored key. -/
theorem c8_success_response_witness :
    resp0 = ⟨7, 2, "ada", "lovelace", "woman", ⟨1990, 5, 1⟩, "hi there",
             s30.get_file_url (avatar_key 2 "me.jpg")⟩ ∧
    create_profile_success_status = 201 ∧
    s30.get_file_url (avatar_key 2 "me.jpg") = "https://cdn/avatars/2_me.jpg" := by
  have hc := c8_success_response today0 req0 jd1 db0 s30 7 resp0 effs0 rfl
  exact ⟨hc.1, hc.2, rfl⟩

/-- C9: for each of the six validated inputs, a value violating that
input's rule (all earlier fields passing) yields a 422 whose detail is a
one-entry structured list naming exactly that field and carrying the
offending raw input. -/
theorem c9_field_validation_errors (today : Date) (raw : RawForm) :
    (∀ m, validate_name raw.first_name = some m →
      ProfileCreateRequestSchema.as_form today raw = Except.error
        ⟨422, ErrorDetail.fields
          [⟨"value_error", ["first_name"], m, raw.first_name⟩]⟩) ∧
    (∀ m, validate_name raw.first_name = none →
      validate_name raw.last_name = some m →
      ProfileCreateRequestSchema.as_form today raw = Except.error
        ⟨422, ErrorDetail.fields
          [⟨"value_error", ["last_name"], m, raw.last_name⟩]⟩) ∧
    (∀ m, validate_name raw.first_name = none →
      validate_name raw.last_name = none →
      validate_gender raw.gender = some m →
      ProfileCreateRequestSchema.as_form today raw = Except.error
        ⟨422, ErrorDetail.fields
          [⟨"value_error", ["gender"], m, raw.gender⟩]⟩) ∧
    (∀ m, validate_name raw.first_name = none →
      validate_name raw.last_name = none →
      validate_gender raw.gender = none →
      validate_birth_date today raw.date_of_birth = some m →
      ProfileCreateRequestSchema.as_form today raw = Except.error
        ⟨422, ErrorDetail.fields
          [⟨"value_error", ["date_of_birth"], m, Date.toIso raw.date_of_birth⟩]⟩) ∧
    (validate_name raw.first_name = none →
      validate_name raw.last_name = none →
      validate_gender raw.gender = none →
      validate_birth_date today raw.date_of_birth = none →
      py_strip raw.info = "" →
      ProfileCreateRequestSchema.as_form today raw = Except.error
        ⟨422, ErrorDetail.fields
          [⟨"value_error", ["info"],
            "Info field cannot be empty or contain only spaces.", raw.info⟩]⟩) ∧
    (∀ m, validate_name raw.first_name = none →
      validate_name raw.last_name = none →
      validate_gender raw.gender = none →
      validate_birth_date today raw.date_of_birth = none →
      ¬(py_strip raw.info = "") →
      validate_image raw.avatar = some m →
      ProfileCreateRequestSchema.as_form today raw = Except.error
        ⟨422, ErrorDetail.fields
          [⟨"value_error", ["avatar"], m, raw.avatar.filename⟩]⟩) := by
  refine ⟨?_, ?_, ?_, ?_, ?_, ?_⟩
  · intro m h1
    simp [ProfileCreateRequestSchema.as_form,
      ProfileCreateRequestSchema.validate_first_name, h1, mkFieldError]
  · intro m h1 h2
    simp [ProfileCreateRequestSchema.as_form,
      ProfileCreateRequestSchema.validate_first_name,
      ProfileCreateRequestSchema.validate_last_name, h1, h2, mkFieldError]
  · intro m h1 h2 h3
    simp [ProfileCreateRequestSchema.as_form,
      ProfileCreateRequestSchema.validate_first_name,
      ProfileCreateRequestSchema.validate_last_name,
      ProfileCreateRequestSchema.validate_gender_field, h1, h2, h3, mkFieldError]
  · intro m h1 h2 h3 h4
    simp [ProfileCreateRequestSchema.as_form,
      ProfileCreateRequestSchema.validate_first_name,
      ProfileCreateRequestSchema.validate_last_name,
      ProfileCreateRequestSchema.validate_gender_field,
      ProfileCreateRequestSchema.validate_age, h1, h2, h3, h4, mkFieldError]
  · intro h1 h2 h3 h4 h5
    simp [ProfileCreateRequestSchema.as_form,
      ProfileCreateRequestSchema.validate_first_name,
      ProfileCreateRequestSchema.validate_last_name,
      ProfileCreateRequestSchema.validate_gender_field,
      ProfileCreateRequestSchema.validate_age,
      ProfileCreateRequestSchema.validate_info_field, h1, h2, h3, h4, h5, mkFieldError]
  · intro m h1 h2 h3 h4 h5 h6
    simp [ProfileCreateRequestSchema.as_form,
      ProfileCreateRequestSchema.validate_first_name,
      ProfileCreateRequestSchema.validate_last_name,
      ProfileCreateRequestSchema.validate_gender_field,
      ProfileCreateRequestSchema.validate_age,
      ProfileCreateRequestSchema.validate_info_field,
      ProfileCreateRequestSchema.validate_avatar, h1, h2, h3, h4, h5, h6, mkFieldError]

/-- Witness for C9: gender "unknown" yields a 422 naming exactly the
gender field with the offending raw value. -/
theorem c9_field_validation_errors_witness :
    ProfileCreateRequestSchema.as_form today0 rawBadGender = Except.error
      ⟨422, ErrorDetail.fields
        [⟨"value_error", ["gender"], "Gender must be one of: man, woman.", "unknown"⟩]⟩ :=
  (c9_field_validation_errors today0 rawBadGender).2.2.1 _ rfl rfl rfl

/-- C10: a decoded payload whose subject claim is present but falsy (0, "",
or null) is rejected exactly like an absent claim: 401 "Invalid token.",
for any account store. -/
theorem c10_falsy_subject_rejected (db : List UserModel) :
    get_current_user (some "Bearer token") (fun _ => Except.ok ⟨some (JsonVal.int 0)⟩) db =
      Except.error ⟨401, ErrorDetail.msg "Invalid token."⟩ ∧
    get_current_user (some "Bearer token") (fun _ => Except.ok ⟨some (JsonVal.str "")⟩) db =
      Except.error ⟨401, ErrorDetail.msg "Invalid token."⟩ ∧
    get_current_user (some "Bearer token") (fun _ => Except.ok ⟨some JsonVal.null⟩) db =
      Except.error ⟨401, ErrorDetail.msg "Invalid token."⟩ ∧
    get_current_user (some "Bearer token") (fun _ => Except.ok ⟨none⟩) db =
      Except.error ⟨401, ErrorDetail.msg "Invalid token."⟩ :=
  ⟨rfl, rfl, rfl, rfl⟩

end ProfileApp
